import Mathlib

/-!
Verification of the access-control and query-scoping core of a multi-user
task-tracking API (Django REST Framework application: `accounts` and `tasks`
apps). The definitions below are a shallow embedding of the Python source:

* `tasks/views.py` — `TaskListCreateView`, `TaskDetailView`, `task_stats`
* `tasks/permissions.py` — `IsOwnerOrAdmin.has_object_permission`
* `tasks/filters.py` — `TaskFilter`
* `tasks/serializers.py` — `TaskCreateUpdateSerializer`
* `accounts/serializers.py` — `UserRegistrationSerializer`

Django querysets are embedded as `List Task` (the row order of the list is
the order the store returns rows in); the ORM `filter(...)` becomes
`List.filter`; `request.user` becomes an explicit `UserRec` argument.
Timestamps are modelled as natural numbers.
-/

namespace TaskManager

/-- Role field of `accounts.models.User`: `ROLE_CHOICES` is
`[("admin", "Admin"), ("user", "Regular User")]`. -/
inductive Role where
  | admin : Role
  | user : Role
deriving DecidableEq, Repr

/-- Caller identity as the views see it: `request.user` carries a primary key
and a `role`. Only these two fields are consulted by the scoping and
permission code. -/
structure UserRec where
  id : Nat
  role : Role
deriving DecidableEq, Repr

/-- Modelled from the spec: `tasks/models.py` is not among the sources; the
spec's §3 Task record has `id`, `title` (required), `description` (optional,
modelled as a plain string with "" for absent), `completed` (default false),
`ownerId` (the `user` foreign key in the source code), `createdAt`,
`updatedAt`. Field names follow the source's column names. -/
structure Task where
  id : Nat
  title : String
  description : String
  completed : Bool
  userId : Nat
  created_at : Nat
  updated_at : Nat
deriving DecidableEq, Repr

/-- Lowercasing used to model Django's case-insensitive `icontains` lookup
and DRF search matching. -/
def strLower (s : String) : List Char :=
  s.data.map Char.toLower

/-- Boolean test that the first list starts the second. -/
def startsList : List Char → List Char → Bool
  | [], _ => true
  | _ :: _, [] => false
  | a :: as, b :: bs => a = b && startsList as bs

/-- Boolean test that `needle` occurs contiguously inside `hay`. -/
def subList (needle : List Char) : List Char → Bool
  | [] => startsList needle []
  | c :: rest => startsList needle (c :: rest) || subList needle rest

/-- Django `field__icontains=s`: case-insensitive substring match. -/
def icontains (hay s : String) : Bool :=
  subList (strLower s) (strLower hay)

/-- Query parameters understood by `tasks.filters.TaskFilter`:
`completed` (BooleanFilter, exact), `title` (CharFilter with
`lookup_expr="icontains"`), `created_at` (DateFromToRangeFilter, giving the
inclusive bounds `created_at_after` / `created_at_before`). An absent
parameter is `none`. -/
structure TaskFilter where
  completed : Option Bool
  title : Option String
  created_at_after : Option Nat
  created_at_before : Option Nat
deriving DecidableEq, Repr

/-- Request with every `TaskFilter` parameter absent. -/
def TaskFilter.empty : TaskFilter :=
  ⟨none, none, none, none⟩

/-- Conjunction of the declared filters of `tasks.filters.TaskFilter`, as
`DjangoFilterBackend` applies them to one row: each present parameter must
match, absent parameters are ignored. -/
def TaskFilter.matches (f : TaskFilter) (t : Task) : Bool :=
  (match f.completed with
    | none => true
    | some b => t.completed = b) &&
  (match f.title with
    | none => true
    | some s => icontains t.title s) &&
  (match f.created_at_after with
    | none => true
    | some d => decide (d ≤ t.created_at)) &&
  (match f.created_at_before with
    | none => true
    | some d => decide (t.created_at ≤ d))

/-- Embedding of `TaskListCreateView.get_queryset` (tasks/views.py lines
25-28): admins get `Task.objects.all()`, everyone else gets
`Task.objects.filter(user=self.request.user)`. -/
def TaskListCreateView.get_queryset (caller : UserRec) (store : List Task) : List Task :=
  if caller.role = Role.admin then store
  else store.filter (fun t => t.userId == caller.id)

/-- Embedding of `TaskDetailView.get_queryset` (tasks/views.py lines 50-53),
textually the same branch as the list view's. -/
def TaskDetailView.get_queryset (caller : UserRec) (store : List Task) : List Task :=
  if caller.role = Role.admin then store
  else store.filter (fun t => t.userId == caller.id)

/-- Embedding of the scoping branch inside `task_stats` (tasks/views.py lines
64-67): `queryset = Task.objects.all()` for admins, else
`Task.objects.filter(user=request.user)`. -/
def statsQueryset (caller : UserRec) (store : List Task) : List Task :=
  if caller.role = Role.admin then store
  else store.filter (fun t => t.userId == caller.id)

/-- Embedding of `IsOwnerOrAdmin.has_object_permission`
(tasks/permissions.py lines 9-15). The source branches on
`request.method in permissions.SAFE_METHODS`; `safe` is that test. Django
compares `obj.user == request.user` by primary key, embedded as
`obj.userId == caller.id`. -/
def IsOwnerOrAdmin.has_object_permission (safe : Bool) (caller : UserRec) (obj : Task) : Bool :=
  if safe then
    caller.role = Role.admin || obj.userId == caller.id
  else
    caller.role = Role.admin || obj.userId == caller.id

/-- Query parameters of a GET /tasks request: the `TaskFilter` parameters plus
the free-text `search` parameter and the `ordering` parameter. -/
structure ListParams where
  filter : TaskFilter
  search : Option String
  ordering : Option String
deriving DecidableEq, Repr

/-- Request with no query parameters. -/
def ListParams.empty : ListParams :=
  ⟨TaskFilter.empty, none, none⟩

/-- Embedding of the filter stage of `TaskListCreateView` (tasks/views.py
lines 19-23): `filter_backends = [DjangoFilterBackend]`, so only the
`TaskFilter` parameters are applied. The view also declares
`search_fields = ["title", "description"]`, `ordering_fields` and
`ordering = ["-created_at"]`, but those attributes are read only by
`rest_framework.filters.SearchFilter` and `OrderingFilter`, neither of which
is in `filter_backends`; the `search` and `ordering` parameters of the
request therefore have no effect on the result. -/
def TaskListCreateView.filter_queryset (p : ListParams) (qs : List Task) : List Task :=
  qs.filter (fun t => p.filter.matches t)

/-- GET /tasks before pagination: scoping (`get_queryset`) then filtering
(`filter_queryset`), exactly the order `ListModelMixin.list` applies them. -/
def listTasks (caller : UserRec) (p : ListParams) (store : List Task) : List Task :=
  TaskListCreateView.filter_queryset p (TaskListCreateView.get_queryset caller store)

/-- Modelled from the spec: the spec-side free-text search semantics
("case-insensitive substring match applied to `title` and `description`"),
used to compare against what the code actually does with the `search`
parameter. -/
def specSearchMatches (s : String) (t : Task) : Bool :=
  icontains t.title s || icontains t.description s

/-- Lexicographic order on character lists, used to state title ordering
executably. -/
def charListLe : List Char → List Char → Bool
  | [], _ => true
  | _ :: _, [] => false
  | a :: as, b :: bs =>
      if a < b then true
      else if b < a then false
      else charListLe as bs

/-- Check that adjacent rows are in nondecreasing title order. -/
def sortedByTitleB : List Task → Bool
  | [] => true
  | [_] => true
  | a :: b :: rest => charListLe a.title.data b.title.data && sortedByTitleB (b :: rest)

/-- Modelled from the spec: the spec-side requested-ordering semantics for
`ordering=title` (results in nondecreasing title order). Used to compare
against what the code actually does with the `ordering` parameter. -/
def specSortedByTitle (ts : List Task) : Prop :=
  sortedByTitleB ts = true

/-- Page payload shape of the list response: `count`, `next`, `previous`
(page numbers, `none` for null links), `results`. -/
structure Page where
  count : Nat
  next : Option Nat
  previous : Option Nat
  results : List Task
deriving DecidableEq, Repr

/-- Modelled from the spec: the pagination class and `PAGE_SIZE` are DRF
settings configured in the project settings module, which is not among the
sources; the spec fixes page size 20. -/
def PAGE_SIZE : Nat := 20

/-- Modelled from the spec: page-number pagination over the filtered scoped
set — fixed page size `PAGE_SIZE`, 1-indexed `page`, `count` equal to the
size of the whole input list, `next`/`previous` present exactly when a
following/preceding page exists, and a page past the last giving an empty
result list rather than an error. -/
def paginate (page : Nat) (items : List Task) : Page :=
  { count := items.length
    next := if page * PAGE_SIZE < items.length then some (page + 1) else none
    previous := if 1 < page then some (page - 1) else none
    results := (items.drop ((page - 1) * PAGE_SIZE)).take PAGE_SIZE }

/-- Full GET /tasks response for a page request. -/
def listTasksPage (caller : UserRec) (p : ListParams) (page : Nat)
    (store : List Task) : Page :=
  paginate page (listTasks caller p store)

/-- Stats payload of GET /tasks/stats (tasks/views.py lines 73-81). The rate
is a rational; the source computes it as a Python float. -/
structure Stats where
  total_tasks : Nat
  completed_tasks : Nat
  pending_tasks : Nat
  completion_rate : ℚ
deriving DecidableEq, Repr

/-- Python's round-half-to-even on a rational. -/
def roundHalfEven (q : ℚ) : ℤ :=
  let f : ℤ := ⌊q⌋
  let r : ℚ := q - f
  if r < 1 / 2 then f
  else if 1 / 2 < r then f + 1
  else if f % 2 = 0 then f else f + 1

/-- Python `round(x, 2)` modelled exactly on rationals (the source applies it
to a float; ties at the third decimal differ from the float computation only
through binary representation error, which the model omits). -/
def pyRound2 (q : ℚ) : ℚ :=
  (roundHalfEven (q * 100) : ℚ) / 100

/-- Embedding of `task_stats` (tasks/views.py lines 61-82): scope by role,
then `total = queryset.count()`,
`completed = queryset.filter(completed=True).count()`,
`pending = total - completed`, and
`completion_rate = round((completed / total * 100) if total > 0 else 0, 2)`. -/
def task_stats (caller : UserRec) (store : List Task) : Stats :=
  let queryset := statsQueryset caller store
  let total_tasks := queryset.length
  let completed_tasks := (queryset.filter (fun t => t.completed == true)).length
  { total_tasks := total_tasks
    completed_tasks := completed_tasks
    pending_tasks := total_tasks - completed_tasks
    completion_rate :=
      pyRound2 (if 0 < total_tasks then (completed_tasks : ℚ) / (total_tasks : ℚ) * 100 else 0) }

/-- Outcome of a single-record operation as the caller observes it:
`ok` (2xx), `notFound` (404 from `get_object_or_404` on the scoped
queryset), `forbidden` (403 from a failed object-permission check). -/
inductive ApiResult (α : Type) where
  | ok : α → ApiResult α
  | notFound : ApiResult α
  | forbidden : ApiResult α
deriving DecidableEq, Repr

/-- Embedding of `GenericAPIView.get_object` as `TaskDetailView` uses it:
`get_object_or_404(self.get_queryset(), pk=pk)` — the first row of the
role-scoped queryset with the requested primary key, 404 when none. -/
def TaskDetailView.get_object (caller : UserRec) (store : List Task) (pk : Nat) :
    Option Task :=
  (TaskDetailView.get_queryset caller store).find? (fun t => t.id == pk)

/-- GET /tasks/{pk}: `get_object` (404 on a miss of the scoped queryset),
then the `IsOwnerOrAdmin` object-permission check with a safe method. -/
def getTask (caller : UserRec) (store : List Task) (pk : Nat) : ApiResult Task :=
  match TaskDetailView.get_object caller store pk with
  | none => ApiResult.notFound
  | some t =>
      if IsOwnerOrAdmin.has_object_permission true caller t then ApiResult.ok t
      else ApiResult.forbidden

/-- Body a client may send for create/update. `user` is an owner value the
client tries to smuggle in; `TaskCreateUpdateSerializer.Meta.fields` is
`["title", "description", "completed"]`, so it is never a validated field. -/
structure RawTaskRequest where
  title : String
  description : String
  completed : Bool
  user : Option Nat
deriving DecidableEq, Repr

/-- Validated data of `TaskCreateUpdateSerializer` (tasks/serializers.py
lines 21-24): only `title`, `description`, `completed` survive validation. -/
structure TaskWriteData where
  title : String
  description : String
  completed : Bool
deriving DecidableEq, Repr

/-- Validation step of `TaskCreateUpdateSerializer`: any client-supplied
`user` value is dropped because it is not among `Meta.fields`. -/
def TaskCreateUpdateSerializer.validated (r : RawTaskRequest) : TaskWriteData :=
  { title := r.title, description := r.description, completed := r.completed }

/-- Embedding of `TaskListCreateView.perform_create` (tasks/views.py lines
35-37): `serializer.save(user=self.request.user)` inserts a row whose owner
is the authenticated caller; `newId` and `now` stand for the
database-assigned primary key and the `auto_now` timestamps. -/
def perform_create (caller : UserRec) (store : List Task) (d : TaskWriteData)
    (newId now : Nat) : List Task :=
  store ++ [{ id := newId, title := d.title, description := d.description,
              completed := d.completed, userId := caller.id,
              created_at := now, updated_at := now }]

/-- POST /tasks: serializer validation then `perform_create`. -/
def createTask (caller : UserRec) (store : List Task) (r : RawTaskRequest)
    (newId now : Nat) : List Task :=
  perform_create caller store (TaskCreateUpdateSerializer.validated r) newId now

/-- Write step of a successful PUT: the serializer writes its validated
fields (`title`, `description`, `completed`) onto the row with key `pk`;
`user`, `id` and `created_at` are not among `Meta.fields` and stay untouched,
`updated_at` is refreshed (`auto_now`). -/
def applyWrite (pk : Nat) (r : RawTaskRequest) (now : Nat)
    (store : List Task) : List Task :=
  store.map (fun s =>
    if s.id == pk then
      { s with title := r.title, description := r.description,
               completed := r.completed, updated_at := now }
    else s)

/-- PUT /tasks/{pk}: `get_object` on the scoped queryset (404 on a miss),
the `IsOwnerOrAdmin` check with an unsafe method, then `applyWrite`.
Returns the new store. -/
def updateTask (caller : UserRec) (store : List Task) (pk : Nat)
    (r : RawTaskRequest) (now : Nat) : ApiResult (List Task) :=
  match TaskDetailView.get_object caller store pk with
  | none => ApiResult.notFound
  | some t =>
      if IsOwnerOrAdmin.has_object_permission false caller t then
        ApiResult.ok (applyWrite pk r now store)
      else ApiResult.forbidden

/-- DELETE /tasks/{pk}: `get_object` on the scoped queryset (404 on a miss),
the `IsOwnerOrAdmin` check with an unsafe method, then the row is deleted.
Returns the new store. -/
def deleteTask (caller : UserRec) (store : List Task) (pk : Nat) :
    ApiResult (List Task) :=
  match TaskDetailView.get_object caller store pk with
  | none => ApiResult.notFound
  | some t =>
      if IsOwnerOrAdmin.has_object_permission false caller t then
        ApiResult.ok (store.filter (fun s => !(s.id == pk)))
      else ApiResult.forbidden

/-- Registration request body (accounts/serializers.py lines 8-15): `role`
is an ordinary writable field of `UserRegistrationSerializer`; `none` means
the field was omitted. -/
structure RegisterRequest where
  username : String
  email : String
  password : String
  password_confirm : String
  role : Option String
deriving DecidableEq, Repr

/-- Valid values of the `role` CharField (accounts/models.py
`ROLE_CHOICES`). -/
def parseRole (s : String) : Option Role :=
  if s = "admin" then some Role.admin
  else if s = "user" then some Role.user
  else none

/-- Embedding of `RegisterView.create` with `UserRegistrationSerializer`
(accounts/views.py lines 11-32): the endpoint is `AllowAny` (no caller
argument); validation rejects a password mismatch and a `role` outside
`ROLE_CHOICES`; `extra_kwargs` defaults `role` to `"user"` when the field is
omitted; `create_user(**validated_data)` stores the supplied role verbatim.
Email uniqueness and password strength checks are orthogonal to role
handling and elided. `newId` stands for the database-assigned key. -/
def register (r : RegisterRequest) (newId : Nat) : Option UserRec :=
  if r.password ≠ r.password_confirm then none
  else
    match r.role with
    | none => some { id := newId, role := Role.user }
    | some s => (parseRole s).map (fun ro => { id := newId, role := ro })

/-- Mutating operation sequences the ownership invariant ranges over:
creates and updates, each performed by some authenticated caller. -/
inductive Op where
  | create : UserRec → RawTaskRequest → Nat → Nat → Op
  | update : UserRec → Nat → RawTaskRequest → Nat → Op
deriving DecidableEq, Repr

/-- Effect of one operation on the store; a rejected update (404 or 403)
leaves the store unchanged. -/
def applyOp (store : List Task) : Op → List Task
  | Op.create c r newId now => createTask c store r newId now
  | Op.update c pk r now =>
      match updateTask c store pk r now with
      | ApiResult.ok store2 => store2
      | _ => store

/-- Store reached by running an operation sequence. -/
def run : List Op → List Task → List Task
  | [], store => store
  | op :: ops, store => run ops (applyOp store op)

/-- Ledger of (task id, creator id) pairs recorded at each create. -/
def creators : List Op → List (Nat × Nat)
  | [] => []
  | Op.create c _ newId _ :: rest => (newId, c.id) :: creators rest
  | Op.update _ _ _ _ :: rest => creators rest

/-- Fixture mirroring `TaskAPITest.setUp`: `user1`. -/
def user1 : UserRec := { id := 1, role := Role.user }

/-- Fixture mirroring `TaskAPITest.setUp`: `user2`. -/
def user2 : UserRec := { id := 2, role := Role.user }

/-- Fixture mirroring `TaskAPITest.setUp`: `admin_user`. -/
def adminUser : UserRec := { id := 3, role := Role.admin }

/-- Fixture mirroring `TaskAPITest.setUp`: `task1` of `user1`. -/
def task1 : Task :=
  { id := 1, title := "User1 Task 1", description := "Task 1 for user 1",
    completed := false, userId := 1, created_at := 1, updated_at := 1 }

/-- Fixture mirroring `TaskAPITest.setUp`: `task2` of `user1`, completed. -/
def task2 : Task :=
  { id := 2, title := "User1 Task 2", description := "Task 2 for user 1",
    completed := true, userId := 1, created_at := 2, updated_at := 2 }

/-- Fixture mirroring `TaskAPITest.setUp`: `task3` of `user2`. -/
def task3 : Task :=
  { id := 3, title := "User2 Task 1", description := "Task 1 for user 2",
    completed := false, userId := 2, created_at := 3, updated_at := 3 }

/-- Fixture store mirroring `TaskAPITest.setUp`. -/
def demoStore : List Task := [task1, task2, task3]

/-- Fixture mirroring `PaginationTest.setUp`: 25 tasks of one user. -/
def bigStore : List Task :=
  (List.range 25).map (fun i =>
    { id := i + 1, title := "Task", description := "", completed := false,
      userId := 1, created_at := i + 1, updated_at := i + 1 })

/-- Fixture pair for the ordering claim: insertion order disagrees with both
title order and descending creation order. -/
def taskB : Task :=
  { id := 1, title := "B", description := "", completed := false,
    userId := 1, created_at := 1, updated_at := 1 }

/-- Fixture for the ordering claim. -/
def taskA : Task :=
  { id := 2, title := "A", description := "", completed := false,
    userId := 1, created_at := 2, updated_at := 2 }

/-- Fixture store for the ordering claim. -/
def titleStore : List Task := [taskB, taskA]

/-- Membership in the non-admin scoped queryset of the list view. -/
lemma mem_list_queryset_of_not_admin (caller : UserRec) (store : List Task)
    (h : caller.role ≠ Role.admin) (t : Task) :
    t ∈ TaskListCreateView.get_queryset caller store ↔
      t ∈ store ∧ t.userId = caller.id := by
  simp [TaskListCreateView.get_queryset, h, List.mem_filter]

/-- Membership in the non-admin scoped queryset of the detail view. -/
lemma mem_detail_queryset_of_not_admin (caller : UserRec) (store : List Task)
    (h : caller.role ≠ Role.admin) (t : Task) :
    t ∈ TaskDetailView.get_queryset caller store ↔
      t ∈ store ∧ t.userId = caller.id := by
  simp [TaskDetailView.get_queryset, h, List.mem_filter]

/-- Rows of the filtered list are rows of the scoped queryset. -/
lemma listTasks_subset_queryset (caller : UserRec) (p : ListParams)
    (store : List Task) (t : Task) (h : t ∈ listTasks caller p store) :
    t ∈ TaskListCreateView.get_queryset caller store := by
  simpa [listTasks, TaskListCreateView.filter_queryset] using
    (List.mem_filter.mp h).1

/-- With no row of the store both carrying key `pk` and owned by the caller,
a non-admin `get_object` lookup misses. -/
lemma get_object_eq_none (caller : UserRec) (store : List Task) (pk : Nat)
    (hrole : caller.role ≠ Role.admin)
    (h : ∀ t ∈ store, t.id = pk → t.userId ≠ caller.id) :
    TaskDetailView.get_object caller store pk = none := by
  apply List.find?_eq_none.mpr
  intro x hx
  rw [mem_detail_queryset_of_not_admin caller store hrole] at hx
  simp only [beq_iff_eq]
  intro hid
  exact h x hx.1 hid hx.2

/-- The write step of an update never moves a row's key or owner. -/
lemma applyWrite_pairs (pk : Nat) (r : RawTaskRequest) (now : Nat)
    (store : List Task) :
    (applyWrite pk r now store).map (fun s => (s.id, s.userId))
      = store.map (fun s => (s.id, s.userId)) := by
  unfold applyWrite
  rw [List.map_map]
  apply List.map_congr_left
  intro a _
  by_cases h : a.id = pk <;> simp [h]

/-- Shape of a successful update: the store is rewritten by `applyWrite`. -/
lemma updateTask_ok_shape (caller : UserRec) (store : List Task) (pk : Nat)
    (r : RawTaskRequest) (now : Nat) (store2 : List Task)
    (h : updateTask caller store pk r now = ApiResult.ok store2) :
    store2 = applyWrite pk r now store := by
  unfold updateTask at h
  cases hobj : TaskDetailView.get_object caller store pk with
  | none => rw [hobj] at h; simp at h
  | some t =>
      rw [hobj] at h
      by_cases hp : IsOwnerOrAdmin.has_object_permission false caller t = true
      · simp [hp] at h
        exact h.symm
      · simp [hp] at h

/-- Every row reachable by an operation sequence carries a (key, owner) pair
recorded either in the starting store or at the create that introduced it. -/
lemma run_pairs (ops : List Op) :
    ∀ (store : List Task) (t : Task), t ∈ run ops store →
      (t.id, t.userId) ∈ store.map (fun s => (s.id, s.userId)) ++ creators ops := by
  induction ops with
  | nil =>
      intro store t ht
      simp only [run] at ht
      simp only [creators, List.append_nil, List.mem_map]
      exact ⟨t, ht, rfl⟩
  | cons op ops ih =>
      intro store t ht
      simp only [run] at ht
      have h2 := ih (applyOp store op) t ht
      cases op with
      | create c r newId now =>
          simp only [applyOp, createTask, perform_create, creators] at h2 ⊢
          simp only [List.map_append, List.map_cons, List.map_nil,
            List.mem_append, List.mem_cons, List.mem_singleton] at h2 ⊢
          tauto
      | update c pk r now =>
          simp only [applyOp] at h2
          simp only [creators]
          cases hres : updateTask c store pk r now with
          | ok store2 =>
              rw [hres] at h2
              rwa [updateTask_ok_shape c store pk r now store2 hres,
                applyWrite_pairs] at h2
          | notFound => rwa [hres] at h2
          | forbidden => rwa [hres] at h2

/-- C3: for every caller and resource, `IsOwnerOrAdmin.has_object_permission`
decides exactly `caller.role == admin OR caller.userId == resourceOwnerId`,
the decision is the same for safe (read) and unsafe (write) methods, and a
caller who is neither admin nor owner is denied all access including read. -/
theorem access_policy_owner_or_admin (safe : Bool) (caller : UserRec) (obj : Task) :
    (IsOwnerOrAdmin.has_object_permission safe caller obj = true ↔
      (caller.role = Role.admin ∨ obj.userId = caller.id))
    ∧ IsOwnerOrAdmin.has_object_permission true caller obj
        = IsOwnerOrAdmin.has_object_permission false caller obj := by
  constructor
  · cases safe <;> simp [IsOwnerOrAdmin.has_object_permission]
  · rfl

/-- C10: the role-based scoping computed by `TaskListCreateView.get_queryset`
and the one computed inside `task_stats` are equal as functions of the caller
and the task store. -/
theorem list_scope_eq_stats_scope (caller : UserRec) (store : List Task) :
    TaskListCreateView.get_queryset caller store = statsQueryset caller store := by
  rfl

/-- C1: `ListTasks` computes over the caller's scoped set — the full store
for an admin, exactly the caller-owned rows otherwise — and this scoping is
applied before filtering and pagination: whatever the query parameters and
page, every returned row lies in the scoped set, a non-admin never receives
a row owned by another user, and with no filters the pre-pagination listing
is exactly the scoped set. -/
theorem listTasks_scoped (caller : UserRec) (store : List Task)
    (p : ListParams) (page : Nat) :
    (caller.role = Role.admin → TaskListCreateView.get_queryset caller store = store)
    ∧ (caller.role ≠ Role.admin →
        ∀ t, t ∈ TaskListCreateView.get_queryset caller store ↔
          t ∈ store ∧ t.userId = caller.id)
    ∧ (∀ t, t ∈ (listTasksPage caller p page store).results →
        t ∈ TaskListCreateView.get_queryset caller store)
    ∧ (caller.role ≠ Role.admin →
        ∀ t, t ∈ (listTasksPage caller p page store).results → t.userId = caller.id)
    ∧ listTasks caller ListParams.empty store = TaskListCreateView.get_queryset caller store := by
  have hpage : ∀ t, t ∈ (listTasksPage caller p page store).results →
      t ∈ TaskListCreateView.get_queryset caller store := by
    intro t ht
    simp only [listTasksPage, paginate] at ht
    exact listTasks_subset_queryset caller p store t
      (List.mem_of_mem_drop (List.mem_of_mem_take ht))
  refine ⟨?_, ?_, hpage, ?_, ?_⟩
  · intro h
    simp [TaskListCreateView.get_queryset, h]
  · exact mem_list_queryset_of_not_admin caller store
  · intro h t ht
    exact ((mem_list_queryset_of_not_admin caller store h t).mp (hpage t ht)).2
  · simp [listTasks, TaskListCreateView.filter_queryset, TaskFilter.matches,
      TaskFilter.empty, ListParams.empty, List.filter_eq_self]

/-- Witness for C1 at the test fixtures: an admin is scoped to the full
store, and `user2` is scoped to exactly the `user2`-owned rows. -/
theorem listTasks_scoped_witness :
    TaskListCreateView.get_queryset adminUser demoStore = demoStore
    ∧ (task3 ∈ TaskListCreateView.get_queryset user2 demoStore ↔
        task3 ∈ demoStore ∧ task3.userId = user2.id)
    ∧ (task1 ∈ (listTasksPage user2 ListParams.empty 1 demoStore).results →
        task1.userId = user2.id) :=
  ⟨(listTasks_scoped adminUser demoStore ListParams.empty 1).1 (by decide),
   (listTasks_scoped user2 demoStore ListParams.empty 1).2.1 (by decide) task3,
   (listTasks_scoped user2 demoStore ListParams.empty 1).2.2.2.1 (by decide) task1⟩

/-- C2: for a non-admin caller, a single-record GET, PUT or DELETE aimed at a
key that exists but is owned only by other users returns `notFound`, and the
result coincides with the result for a key that matches no row at all: the
existing-but-forbidden run and the nonexistent run are indistinguishable. -/
theorem detail_not_found_indistinguishable (caller : UserRec) (store : List Task)
    (pkF pkM : Nat) (r : RawTaskRequest) (now : Nat)
    (hrole : caller.role ≠ Role.admin)
    (_hF : ∃ t ∈ store, t.id = pkF)
    (hFo : ∀ t ∈ store, t.id = pkF → t.userId ≠ caller.id)
    (hM : ∀ t ∈ store, t.id ≠ pkM) :
    getTask caller store pkF = ApiResult.notFound
    ∧ updateTask caller store pkF r now = ApiResult.notFound
    ∧ deleteTask caller store pkF = ApiResult.notFound
    ∧ getTask caller store pkF = getTask caller store pkM
    ∧ updateTask caller store pkF r now = updateTask caller store pkM r now
    ∧ deleteTask caller store pkF = deleteTask caller store pkM := by
  have hnF : TaskDetailView.get_object caller store pkF = none :=
    get_object_eq_none caller store pkF hrole hFo
  have hnM : TaskDetailView.get_object caller store pkM = none :=
    get_object_eq_none caller store pkM hrole (fun t ht hid => absurd hid (hM t ht))
  refine ⟨?_, ?_, ?_, ?_, ?_, ?_⟩ <;>
    simp [getTask, updateTask, deleteTask, hnF, hnM]

/-- Witness for C2 at the test fixtures: `user2` requesting `task1` (owned by
`user1`) and requesting the unused key 99 both draw `notFound` from all three
detail operations. -/
theorem detail_not_found_indistinguishable_witness :
    getTask user2 demoStore 1 = ApiResult.notFound
    ∧ deleteTask user2 demoStore 1 = deleteTask user2 demoStore 99 :=
  have h := detail_not_found_indistinguishable user2 demoStore 1 99
    { title := "x", description := "y", completed := false, user := none } 7
    (by decide) ⟨task1, by decide, by decide⟩ (by decide) (by decide)
  ⟨h.1, h.2.2.2.2.2⟩

/-- C4: `task_stats` computes over the caller's scoped set with no filters:
the scoped set is the full store for an admin and exactly the caller-owned
rows otherwise; `total` is its size, `completed` counts its completed rows,
`pending = total - completed`, and the completion rate is
`round(completed / total * 100, 2)` when `total > 0` and `0` when
`total = 0`, with no error on an empty set. -/
theorem task_stats_correct (caller : UserRec) (store : List Task) :
    (caller.role = Role.admin → statsQueryset caller store = store)
    ∧ (caller.role ≠ Role.admin →
        ∀ t, t ∈ statsQueryset caller store ↔ t ∈ store ∧ t.userId = caller.id)
    ∧ (task_stats caller store).total_tasks = (statsQueryset caller store).length
    ∧ (task_stats caller store).completed_tasks
        = ((statsQueryset caller store).filter (fun t => t.completed)).length
    ∧ (task_stats caller store).pending_tasks
        = (task_stats caller store).total_tasks - (task_stats caller store).completed_tasks
    ∧ (0 < (statsQueryset caller store).length →
        (task_stats caller store).completion_rate
          = pyRound2 ((((statsQueryset caller store).filter (fun t => t.completed)).length : ℚ)
              / ((statsQueryset caller store).length : ℚ) * 100))
    ∧ ((statsQueryset caller store).length = 0 →
        (task_stats caller store).completion_rate = 0) := by
  refine ⟨?_, ?_, rfl, by simp [task_stats], rfl, ?_, ?_⟩
  · intro h
    simp [statsQueryset, h]
  · intro h t
    simp [statsQueryset, h, List.mem_filter]
  · intro h
    simp [task_stats, h]
  · intro h
    have h0 : pyRound2 0 = 0 := by
      norm_num [pyRound2, roundHalfEven]
    simp [task_stats, h, h0]

/-- Witness for C4 at the test fixtures: `user1` owns two tasks of which one
is completed, giving a 50% completion rate, and an empty scoped set (a fresh
user) gives rate 0 without error. -/
theorem task_stats_correct_witness :
    (task_stats user1 demoStore).completion_rate
      = pyRound2 ((((statsQueryset user1 demoStore).filter (fun t => t.completed)).length : ℚ)
          / (((statsQueryset user1 demoStore).length : ℚ)) * 100)
    ∧ (task_stats { id := 42, role := Role.user } demoStore).completion_rate = 0 :=
  ⟨(task_stats_correct user1 demoStore).2.2.2.2.2.1 (by decide),
   (task_stats_correct { id := 42, role := Role.user } demoStore).2.2.2.2.2.2 (by decide)⟩

/-- C5: a create stores the caller as owner — the appended row's `userId` is
`caller.id`, and a client-supplied owner value changes nothing because the
serializer drops it; a successful update never moves any row's key or owner;
hence over any sequence of creates and updates starting from the empty
store, every task's owner is the caller of the create that introduced it. -/
theorem owner_is_creator (caller : UserRec) (store : List Task)
    (r : RawTaskRequest) (newId now : Nat) (ops : List Op) (t : Task) :
    createTask caller store r newId now
      = store ++ [{ id := newId, title := r.title, description := r.description,
                    completed := r.completed, userId := caller.id,
                    created_at := now, updated_at := now }]
    ∧ (∀ o, createTask caller store { r with user := o } newId now
          = createTask caller store r newId now)
    ∧ (∀ pk store2, updateTask caller store pk r now = ApiResult.ok store2 →
        store2.map (fun s => (s.id, s.userId)) = store.map (fun s => (s.id, s.userId)))
    ∧ (t ∈ run ops [] → (t.id, t.userId) ∈ creators ops) := by
  refine ⟨rfl, fun o => rfl, ?_, ?_⟩
  · intro pk store2 h
    rw [updateTask_ok_shape caller store pk r now store2 h, applyWrite_pairs]
  · intro ht
    simpa using run_pairs ops [] t ht

/-- Witness for C5: a create by `user1` that tries to smuggle owner 2 in the
body, followed by an owner update; the surviving task is still recorded as
created and owned by `user1`, and the update kept every (key, owner) pair. -/
theorem owner_is_creator_witness :
    (({ id := 10, title := "t", description := "d", completed := true,
        userId := 1, created_at := 5, updated_at := 6 } : Task)
      ∈ run [Op.create user1 { title := "New Test Task", description := "New test description",
                               completed := false, user := some 2 } 10 5,
             Op.update user1 10 { title := "t", description := "d",
                                  completed := true, user := some 2 } 6] []
      ∧ ((10 : Nat), (1 : Nat))
          ∈ creators [Op.create user1 { title := "New Test Task", description := "New test description",
                                        completed := false, user := some 2 } 10 5,
                      Op.update user1 10 { title := "t", description := "d",
                                           completed := true, user := some 2 } 6])
    ∧ (updateTask user1 [task1] 1 { title := "t", description := "d",
                                    completed := true, user := some 2 } 6
        = ApiResult.ok (applyWrite 1 { title := "t", description := "d",
                                       completed := true, user := some 2 } 6 [task1])
      ∧ (applyWrite 1 { title := "t", description := "d",
                        completed := true, user := some 2 } 6 [task1]).map
            (fun s => (s.id, s.userId))
          = [task1].map (fun s => (s.id, s.userId))) :=
  ⟨⟨by decide,
    (owner_is_creator user1 [] { title := "New Test Task", description := "New test description",
                                 completed := false, user := some 2 } 10 5
      [Op.create user1 { title := "New Test Task", description := "New test description",
                         completed := false, user := some 2 } 10 5,
       Op.update user1 10 { title := "t", description := "d",
                            completed := true, user := some 2 } 6]
      { id := 10, title := "t", description := "d", completed := true,
        userId := 1, created_at := 5, updated_at := 6 }).2.2.2 (by decide)⟩,
   ⟨by decide,
    (owner_is_creator user1 [task1] { title := "t", description := "d",
                                      completed := true, user := some 2 } 1 6 [] task1).2.2.1
      1 (applyWrite 1 { title := "t", description := "d",
                        completed := true, user := some 2 } 6 [task1]) (by decide)⟩⟩

/-- C8: the paginated listing has fixed page size 20 with 1-indexed pages:
`count` is the size of the filtered scoped set, a page wholly inside the set
carries exactly `PAGE_SIZE` rows, a page strictly beyond the last yields an
empty result list (not an error), and the next/previous indicators are
non-null exactly when a following/preceding page exists. -/
theorem pagination_correct (caller : UserRec) (p : ListParams) (page : Nat)
    (store : List Task) :
    PAGE_SIZE = 20
    ∧ (listTasksPage caller p page store).count = (listTasks caller p store).length
    ∧ (listTasksPage caller p page store).results.length ≤ PAGE_SIZE
    ∧ (1 ≤ page → PAGE_SIZE * page ≤ (listTasks caller p store).length →
        (listTasksPage caller p page store).results.length = PAGE_SIZE)
    ∧ ((listTasks caller p store).length ≤ (page - 1) * PAGE_SIZE →
        (listTasksPage caller p page store).results = [])
    ∧ ((listTasksPage caller p page store).next ≠ none ↔
        page * PAGE_SIZE < (listTasks caller p store).length)
    ∧ ((listTasksPage caller p page store).previous ≠ none ↔ 1 < page) := by
  refine ⟨rfl, rfl, ?_, ?_, ?_, ?_, ?_⟩
  · simp only [listTasksPage, paginate]
    exact List.length_take_le _ _
  · intro h1 h2
    simp only [listTasksPage, paginate, List.length_take, List.length_drop,
      PAGE_SIZE] at h2 ⊢
    omega
  · intro h
    simp only [listTasksPage, paginate, PAGE_SIZE] at h ⊢
    rw [List.drop_eq_nil_of_le (by omega), List.take_nil]
  · simp only [listTasksPage, paginate]
    split <;> simp_all
  · simp only [listTasksPage, paginate]
    split <;> simp_all

/-- Witness for C8 at the 25-task fixture: page 1 is full (20 rows) and page
3 is past the last page and comes back empty. -/
theorem pagination_correct_witness :
    (listTasksPage user1 ListParams.empty 1 bigStore).results.length = PAGE_SIZE
    ∧ (listTasksPage user1 ListParams.empty 3 bigStore).results = [] :=
  ⟨(pagination_correct user1 ListParams.empty 1 bigStore).2.2.2.1 (by decide) (by decide),
   (pagination_correct user1 ListParams.empty 3 bigStore).2.2.2.2.1 (by decide)⟩

/-- C9: registration stores the client-supplied role verbatim — defaulting to
`user` only when the field is omitted — so an unauthenticated request with
`role = "admin"` yields an administrator account, which the scoping and
permission rules then grant visibility and write access over every task. -/
theorem register_role_client_controlled (r : RegisterRequest) (newId : Nat)
    (u : UserRec) (store : List Task) :
    (r.password = r.password_confirm → r.role = none →
      register r newId = some { id := newId, role := Role.user })
    ∧ (r.password = r.password_confirm → ∀ s ro, r.role = some s → parseRole s = some ro →
      register r newId = some { id := newId, role := ro })
    ∧ (r.password = r.password_confirm → r.role = some "admin" →
      register r newId = some { id := newId, role := Role.admin })
    ∧ (u.role = Role.admin →
      TaskListCreateView.get_queryset u store = store
      ∧ ∀ t safe, IsOwnerOrAdmin.has_object_permission safe u t = true) := by
  refine ⟨?_, ?_, ?_, ?_⟩
  · intro hp hr
    simp [register, hp, hr]
  · intro hp s ro hr hro
    simp [register, hp, hr, hro]
  · intro hp hr
    simp [register, hp, hr, parseRole]
  · intro h
    refine ⟨by simp [TaskListCreateView.get_queryset, h], ?_⟩
    intro t safe
    cases safe <;> simp [IsOwnerOrAdmin.has_object_permission, h]

/-- Witness for C9: a concrete unauthenticated registration carrying
`role = "admin"` produces an admin account, and that account is scoped to
the whole fixture store and passes every object-permission check on a task
it does not own. -/
theorem register_role_client_controlled_witness :
    register { username := "mallory", email := "m@example.com",
               password := "p", password_confirm := "p", role := some "admin" } 9
      = some { id := 9, role := Role.admin }
    ∧ TaskListCreateView.get_queryset { id := 9, role := Role.admin } demoStore = demoStore
    ∧ IsOwnerOrAdmin.has_object_permission false { id := 9, role := Role.admin } task1 = true :=
  have h := register_role_client_controlled
    { username := "mallory", email := "m@example.com",
      password := "p", password_confirm := "p", role := some "admin" } 9
    { id := 9, role := Role.admin } demoStore
  ⟨h.2.2.1 (by decide) (by decide),
   (h.2.2.2 (by decide)).1,
   (h.2.2.2 (by decide)).2 task1 false⟩

/-- C6: what the code does with the free-text `search` parameter — because
`SearchFilter` is not among the view's `filter_backends`, the parameter has
no effect at all: the listing with any `search` value equals the listing
without it, and at the test fixture a search for "Task 2" still returns
`task1`, which matches the spec's search semantics for neither its title nor
its description. -/
theorem search_param_ignored :
    (∀ (caller : UserRec) (f : TaskFilter) (s : Option String) (o : Option String)
        (store : List Task),
      listTasks caller { filter := f, search := s, ordering := o } store
        = listTasks caller { filter := f, search := none, ordering := o } store)
    ∧ listTasks user1 { filter := TaskFilter.empty, search := some "Task 2",
                        ordering := none } demoStore = [task1, task2]
    ∧ specSearchMatches "Task 2" task1 = false
    ∧ specSearchMatches "Task 2" task2 = true := by
  refine ⟨fun caller f s o store => rfl, by decide, by decide, by decide⟩

/-- C7: what the code does with the `ordering` parameter — because
`OrderingFilter` is not among the view's `filter_backends`, a requested
ordering has no effect and no default ordering is applied by the view: the
listing with `ordering=title` equals the listing without it, and at a
two-task fixture whose insertion order disagrees with title order the result
is not sorted by title; the declared default `-created_at` is not applied
either (the result is in ascending, not descending, creation order). -/
theorem ordering_param_ignored :
    (∀ (caller : UserRec) (f : TaskFilter) (s : Option String) (o : Option String)
        (store : List Task),
      listTasks caller { filter := f, search := s, ordering := o } store
        = listTasks caller { filter := f, search := s, ordering := none } store)
    ∧ listTasks user1 { filter := TaskFilter.empty, search := none,
                        ordering := some "title" } titleStore = [taskB, taskA]
    ∧ ¬ specSortedByTitle [taskB, taskA]
    ∧ listTasks user1 ListParams.empty titleStore = [taskB, taskA]
    ∧ taskB.created_at < taskA.created_at := by
  refine ⟨fun caller f s o store => rfl, by decide, ?_, by decide, by decide⟩
  simp only [specSortedByTitle]
  decide

end TaskManager
